import Mathlib

/-!
Verification of the asynchronous geocoding pipeline of LabLog.py: the
background geocoding worker (method geocode_locations_in_thread of the
CaseLogApp class), the location cache backed by the geocache table
(get_cached_location_db / add_cached_location_db), the UI-thread result
sync loop (method process_geocoding_results), the finalize step
(method finalize_map_loading) and the load coordinator
(method load_map_markers).

Modelling conventions:
 - Coordinates are opaque payloads; the code performs no arithmetic on
   them, so they are modelled as integers.
 - The geocache table has location_key as PRIMARY KEY and is written with
   INSERT OR REPLACE, so it is modelled as a function from keys to
   optional coordinate pairs.
 - A call of the external Nominatim geocoder is modelled by an oracle
   from the query string to an outcome: a found coordinate pair, no
   result, or one of the exception classes the source catches
   (GeocoderTimedOut, GeocoderUnavailable, any other exception).
 - The stop flag (the root attribute checked once per loop iteration) is
   modelled as a function from the iteration index to a boolean.
 - The worker's observable behaviour is a list of actions: cache reads,
   external geocoder invocations, cache writes, queue puts and throttle
   sleeps. Sleep durations are in tenths of a time unit, so the source's
   time.sleep(1.1) is sleep 11.
-/

/-- Outcome of one invocation of the external geocoder: the source either
receives a location object, receives None, or catches GeocoderTimedOut,
GeocoderUnavailable or a generic exception. -/
inductive GeoOutcome where
  | found (latitude longitude : Int)
  | noResult
  | timedOut
  | unavailable
  | err (msg : String)
deriving DecidableEq

/-- A result event put on the geocoding queue by the worker thread:
a cache hit, a fresh geocode, a skip with a reason string, or the
terminal finished marker. -/
inductive GeocodeEvent where
  | success_cached (city state : String) (latitude longitude : Int)
  | success_geocoded (city state : String) (latitude longitude : Int)
  | skipped (city state reason : String)
  | finished
deriving DecidableEq

/-- Observable action of the worker thread: a cache lookup, an external
geocoder call with its query string, a cache write, an event put on the
result queue, or a throttle sleep (duration in tenths of a time unit). -/
inductive WorkerAction where
  | cacheGet (key : String)
  | geocall (query : String)
  | cachePut (key : String) (latitude longitude : Int)
  | emit (e : GeocodeEvent)
  | sleep (tenths : Nat)
deriving DecidableEq

/-- The geocache table keyed by location_key (PRIMARY KEY), modelled as a
partial map from key strings to coordinate pairs. -/
abbrev Cache := String → Option (Int × Int)

/-- The empty geocache. -/
def emptyCache : Cache := fun _ => none

/-- Retrieves cached latitude and longitude for a location_key
(source function get_cached_location_db). -/
def get_cached_location_db (cache : Cache) (location_key : String) : Option (Int × Int) :=
  cache location_key

/-- Adds or updates a location in the geocache; the source issues
INSERT OR REPLACE on the PRIMARY KEY column location_key
(source function add_cached_location_db). -/
def add_cached_location_db (cache : Cache) (location_key : String) (latitude longitude : Int) :
    Cache :=
  fun k => if k = location_key then some (latitude, longitude) else cache k

/-- The composite cache key built by the worker for a (city, state) pair. -/
def location_cache_key (city state : String) : String :=
  city ++ "|" ++ state

/-- The query string sent to the external geocoder for a (city, state) pair. -/
def location_string (city state : String) : String :=
  city ++ ", " ++ state ++ ", USA"

/-- Processing of a single location inside the worker loop: cache lookup;
on a hit put a success_cached event and continue immediately; on a miss
invoke the external geocoder, cache a found result and put the matching
event, then sleep 1.1 time units. Returns the updated cache and the list
of actions performed for this location. -/
def processLocation (geocoder : String → GeoOutcome) (cache : Cache) (city state : String) :
    Cache × List WorkerAction :=
  match get_cached_location_db cache (location_cache_key city state) with
  | some (latitude, longitude) =>
      (cache, [.cacheGet (location_cache_key city state),
               .emit (.success_cached city state latitude longitude)])
  | none =>
      match geocoder (location_string city state) with
      | .found latitude longitude =>
          (add_cached_location_db cache (location_cache_key city state) latitude longitude,
           [.cacheGet (location_cache_key city state),
            .geocall (location_string city state),
            .cachePut (location_cache_key city state) latitude longitude,
            .emit (.success_geocoded city state latitude longitude),
            .sleep 11])
      | .noResult =>
          (cache, [.cacheGet (location_cache_key city state),
                   .geocall (location_string city state),
                   .emit (.skipped city state "Could not geolocate via Nominatim"),
                   .sleep 11])
      | .timedOut =>
          (cache, [.cacheGet (location_cache_key city state),
                   .geocall (location_string city state),
                   .emit (.skipped city state "Geocoding timed out"),
                   .sleep 11])
      | .unavailable =>
          (cache, [.cacheGet (location_cache_key city state),
                   .geocall (location_string city state),
                   .emit (.skipped city state "Geocoding service unavailable"),
                   .sleep 11])
      | .err e =>
          (cache, [.cacheGet (location_cache_key city state),
                   .geocall (location_string city state),
                   .emit (.skipped city state ("Nominatim Error: " ++ e)),
                   .sleep 11])

/-- The geocoding worker thread body (source method
geocode_locations_in_thread, written with a leading underscore there):
iterate over the unique locations; before each location check the stop
flag and break if it is cleared; otherwise process the location; after
the loop, in all cases, put the finished marker on the queue. The
parameter running gives the value of the liveness flag as observed at
each iteration index. -/
def geocode_locations_in_thread (geocoder : String → GeoOutcome) (running : Nat → Bool) :
    List (String × String) → Cache → Nat → Cache × List WorkerAction
  | [], cache, _ => (cache, [.emit .finished])
  | (city, state) :: rest, cache, index =>
      if running index then
        let step := processLocation geocoder cache city state
        let tail := geocode_locations_in_thread geocoder running rest step.1 (index + 1)
        (tail.1, step.2 ++ tail.2)
      else
        (cache, [.emit .finished])

/-- The events among a list of worker actions, in order. -/
def emittedEvents (acts : List WorkerAction) : List GeocodeEvent :=
  acts.filterMap fun a =>
    match a with
    | .emit e => some e
    | _ => none

/-- The sequence of events the worker puts on the result queue for a
batch, starting at iteration index zero. -/
def workerEvents (geocoder : String → GeoOutcome) (running : Nat → Bool)
    (locations : List (String × String)) (cache : Cache) : List GeocodeEvent :=
  emittedEvents (geocode_locations_in_thread geocoder running locations cache 0).2

/-- The (city, state) pair an event reports on, or none for the finished
marker. -/
def eventLocation : GeocodeEvent → Option (String × String)
  | .success_cached city state _ _ => some (city, state)
  | .success_geocoded city state _ _ => some (city, state)
  | .skipped city state _ => some (city, state)
  | .finished => none

/-- The single event the worker puts on the queue for one location: the
event component of processLocation. -/
def locEvent (geocoder : String → GeoOutcome) (cache : Cache) (city state : String) :
    GeocodeEvent :=
  match get_cached_location_db cache (location_cache_key city state) with
  | some (latitude, longitude) => .success_cached city state latitude longitude
  | none =>
      match geocoder (location_string city state) with
      | .found latitude longitude => .success_geocoded city state latitude longitude
      | .noResult => .skipped city state "Could not geolocate via Nominatim"
      | .timedOut => .skipped city state "Geocoding timed out"
      | .unavailable => .skipped city state "Geocoding service unavailable"
      | .err e => .skipped city state ("Nominatim Error: " ++ e)

/-- The per-location events of a full pass of the worker over a location
list, threading the cache, without the terminal finished marker. -/
def perLocationEvents (geocoder : String → GeoOutcome) :
    List (String × String) → Cache → List GeocodeEvent
  | [], _ => []
  | (city, state) :: rest, cache =>
      locEvent geocoder cache city state ::
        perLocationEvents geocoder rest (processLocation geocoder cache city state).1

/-- Whether a geocoder outcome is a failure (anything except a found
coordinate pair). -/
def isFailure : GeoOutcome → Bool
  | .found _ _ => false
  | _ => true

/-- The reason string the worker attaches to the skipped event for each
failing geocoder outcome. -/
def failureReason : GeoOutcome → String
  | .found _ _ => ""
  | .noResult => "Could not geolocate via Nominatim"
  | .timedOut => "Geocoding timed out"
  | .unavailable => "Geocoding service unavailable"
  | .err e => "Nominatim Error: " ++ e

/-- A case record as read from the cases table; the source accesses the
fields with dict get, which yields None when absent, so each field is an
optional string. Only the fields the geocoding pipeline reads are
modelled. -/
structure CaseRecord where
  city_of_offense : Option String
  state_of_offense : Option String
  offense_type : Option String
deriving DecidableEq

/-- The source's pattern (value or empty string): an optional string with
None replaced by the empty string. -/
def orEmpty : Option String → String
  | some s => s
  | none => ""

/-- Python's strip method: remove leading and trailing whitespace,
modelled directly on the character list of the string. -/
def pyStrip (s : String) : String :=
  String.mk (((s.data.dropWhile Char.isWhitespace).reverse.dropWhile
    Char.isWhitespace).reverse)

/-- Insertion into the unique-location set, modelled as a duplicate-free
list in first-insertion order (Python set semantics up to iteration
order). -/
def insertUnique (locs : List (String × String)) (k : String × String) :
    List (String × String) :=
  if k ∈ locs then locs else locs ++ [k]

/-- Appending a case to the group of its location key in the grouping
dictionary, modelled as an association list in insertion order. -/
def appendGroup (k : String × String) (c : CaseRecord) :
    List ((String × String) × List CaseRecord) →
      List ((String × String) × List CaseRecord)
  | [] => [(k, [c])]
  | (k', cs) :: rest =>
      if k' = k then (k', cs ++ [c]) :: rest else (k', cs) :: appendGroup k c rest

/-- The grouping loop of load_map_markers: for each case, trim the city
and state fields; when both are non-empty add the (city, state) pair to
the unique-location set and append the case to the group for that pair.
Returns the unique-location list and the grouping. -/
def extractLocations (all_cases : List CaseRecord) :
    List (String × String) × List ((String × String) × List CaseRecord) :=
  all_cases.foldl
    (fun acc case =>
      let city := pyStrip (orEmpty case.city_of_offense)
      let state := pyStrip (orEmpty case.state_of_offense)
      if city ≠ "" ∧ state ≠ "" then
        (insertUnique acc.1 (city, state), appendGroup (city, state) case acc.2)
      else acc)
    ([], [])

/-- Lookup of a location key in the grouping dictionary, with the empty
list as the default the source uses. -/
def lookupGroup (grouped : List ((String × String) × List CaseRecord))
    (k : String × String) : List CaseRecord :=
  match grouped.lookup k with
  | some cs => cs
  | none => []

/-- Lexicographic comparison of character lists by code point, the order
Python uses to compare strings. -/
def charListLe : List Char → List Char → Bool
  | [], _ => true
  | _ :: _, [] => false
  | a :: as, b :: bs => if a < b then true else if b < a then false else charListLe as bs

/-- Python's string order: lexicographic on the code points. -/
def strLe (a b : String) : Bool :=
  charListLe a.data b.data

/-- Insertion into a list sorted by the string order (used to model
Python's sorted builtin on strings). -/
def insertSorted (x : String) : List String → List String
  | [] => [x]
  | y :: ys => if strLe x y then x :: y :: ys else y :: insertSorted x ys

/-- Insertion sort on strings, modelling Python's sorted builtin. -/
def sortStrings (l : List String) : List String :=
  l.foldr insertSorted []

/-- The set of distinct trimmed non-empty offense types among a group of
cases, modelled as a duplicate-free list in first-insertion order. -/
def uniqueOffenseTypes (cases : List CaseRecord) : List String :=
  cases.foldl
    (fun acc case =>
      let offense_type := pyStrip (orEmpty case.offense_type)
      if offense_type ≠ "" then
        (if offense_type ∈ acc then acc else acc ++ [offense_type])
      else acc)
    []

/-- The popup text built in process_geocoding_results for a success
event: the city line, then either the sorted distinct offense types (one
dash line each), or the fallback sentences, with surrounding whitespace
stripped at the end. -/
def buildInfoText (grouped : List ((String × String) × List CaseRecord))
    (city state : String) : String :=
  let base := "City of Offense: " ++ city ++ "\n"
  let cases_at_location := lookupGroup grouped (city, state)
  let text :=
    if cases_at_location ≠ [] then
      let offenses := uniqueOffenseTypes cases_at_location
      if offenses ≠ [] then
        base ++ "\nTypes of Offense:\n" ++
          String.join ((sortStrings (offenses.filter (fun o => o ≠ ""))).map
            (fun o => "- " ++ o ++ "\n"))
      else
        base ++ "\nNo specific offense types listed for this city."
    else
      base ++ "\nNo case data found for this location."
  pyStrip text

/-- The UI-side state the pipeline touches: existence of the map widget,
liveness of the worker thread, the marker dictionary (key, latitude,
longitude, popup text), the two counters, the grouping from the current
load, the queue-processing flag, the map status label text and the
status bar text. -/
structure AppState where
  map_widget_exists : Bool
  geocoding_thread_alive : Bool
  map_markers : List ((String × String) × Int × Int × String)
  geolocated_count : Nat
  skipped_count : Nat
  grouped_cases : List ((String × String) × List CaseRecord)
  processing_queue : Bool
  map_status : String
  status : String
deriving DecidableEq

/-- What a call of load_map_markers did: nothing (guard refused it),
a synchronous finish with no worker, or the start of a worker on the
given unique locations. -/
inductive LoadOutcome where
  | noop
  | finishedEmpty
  | startedWorker (locations : List (String × String))
deriving DecidableEq

/-- The load coordinator (source method load_map_markers): refuse when
the map widget is gone; refuse (no-op with a status message) when a
geocoding thread is already alive; otherwise clear markers, counters and
grouping, extract the unique locations, finish synchronously when there
is nothing to geocode, and otherwise start the worker and the sync
loop. -/
def load_map_markers (st : AppState) (all_cases : List CaseRecord) :
    AppState × LoadOutcome :=
  if st.map_widget_exists = false then
    ({ st with status := "Map widget not available." }, .noop)
  else if st.geocoding_thread_alive then
    ({ st with status := "Map loading already in progress." }, .noop)
  else
    let st := { st with
      status := "Loading map markers (Geocoding in progress)...",
      map_markers := [], geolocated_count := 0, skipped_count := 0,
      grouped_cases := [] }
    if all_cases = [] then
      ({ st with status := "Map status: No cases to geocode." }, .finishedEmpty)
    else
      let extracted := extractLocations all_cases
      let st := { st with grouped_cases := extracted.2 }
      if extracted.1 = [] then
        ({ st with status := "Map status: No geolocatable cases (missing city/state)." },
         .finishedEmpty)
      else
        ({ st with processing_queue := true, geocoding_thread_alive := true },
         .startedWorker extracted.1)

/-- The running status text updated after each processed event. -/
def runningStatus (geolocated skipped : Nat) : String :=
  "Loading map markers... (" ++ toString geolocated ++
    " locations processed, " ++ toString skipped ++ " skipped)"

/-- The finalize step (source method finalize_map_loading, written with a
leading underscore there): when the map widget still exists, compose the
final map status from the geolocated count and the marker dictionary,
appending the skipped suffix when the skipped count is positive, and set
the status bar; otherwise only record that finalization was skipped. -/
def finalize_map_loading (st : AppState) : AppState :=
  if st.map_widget_exists then
    let base :=
      if st.geolocated_count > 0 then
        if st.map_markers ≠ [] then
          "Map status: Displaying " ++ toString st.geolocated_count ++
            " locations with markers."
        else
          "Map status: No geolocated markers to display."
      else
        "Map status: No geolocatable cases."
    let final_map_status :=
      if st.skipped_count > 0 then
        base ++ " (" ++ toString st.skipped_count ++ " skipped/errored)"
      else base
    { st with map_status := final_map_status, status := "Map markers loaded." }
  else
    { st with status := "Map finalization skipped (widget destroyed)." }

/-- Placing or replacing a marker in the marker dictionary under its
location key. -/
def setMarker (markers : List ((String × String) × Int × Int × String))
    (k : String × String) (latitude longitude : Int) (info : String) :
    List ((String × String) × Int × Int × String) :=
  (k, latitude, longitude, info) :: markers.filter (fun m => m.1 ≠ k)

/-- Handling of the finished event inside the drain loop: clear the
queue-processing flag, drop the worker thread and run the finalize
step. -/
def handleFinished (st : AppState) : AppState :=
  finalize_map_loading
    { st with processing_queue := false, geocoding_thread_alive := false }

/-- Handling of one non-terminal queue item in the drain loop of
process_geocoding_results. For a success event the popup text is built,
the marker is placed (placeOk tells whether the toolkit set_marker call
succeeds or raises) and on success the geolocated counter and status are
updated, while a raise increments the skipped counter instead; for a
skipped event the skipped counter and status are updated; the finished
event is handled before this point and leaves the state unchanged
here. -/
def processQueueItem (placeOk : Bool) (st : AppState) : GeocodeEvent → AppState
  | .success_cached city state latitude longitude =>
      let info := buildInfoText st.grouped_cases city state
      if placeOk then
        { st with
          map_markers := setMarker st.map_markers (city, state) latitude longitude info,
          geolocated_count := st.geolocated_count + 1,
          status := runningStatus (st.geolocated_count + 1) st.skipped_count }
      else
        { st with skipped_count := st.skipped_count + 1 }
  | .success_geocoded city state latitude longitude =>
      let info := buildInfoText st.grouped_cases city state
      if placeOk then
        { st with
          map_markers := setMarker st.map_markers (city, state) latitude longitude info,
          geolocated_count := st.geolocated_count + 1,
          status := runningStatus (st.geolocated_count + 1) st.skipped_count }
      else
        { st with skipped_count := st.skipped_count + 1 }
  | .skipped _ _ _ =>
      { st with
        skipped_count := st.skipped_count + 1,
        status := runningStatus st.geolocated_count (st.skipped_count + 1) }
  | .finished => st

/-- The drain loop of one invocation of process_geocoding_results over a
list of queue items: a finished item runs handleFinished first; then the
map-widget guard stops the loop (clearing the queue-processing flag) if
the widget is gone; otherwise a non-terminal item is processed with
processQueueItem. placeOk gives, per item index, whether the toolkit
set_marker call succeeds. -/
def drainQueue (placeOk : Nat → Bool) :
    AppState → List GeocodeEvent → Nat → AppState
  | st, [], _ => st
  | st, e :: rest, index =>
      let st1 := if e = .finished then handleFinished st else st
      if st1.map_widget_exists = false then
        { st1 with processing_queue := false }
      else
        let st2 := if e = .finished then st1 else processQueueItem (placeOk index) st1 e
        drainQueue placeOk st2 rest (index + 1)

/-- The UI state right after load_map_markers has started a worker:
widget alive, worker alive, cleared markers and counters, the grouping
of the current load, and the queue-processing flag set. -/
def initialSyncState (grouped : List ((String × String) × List CaseRecord)) : AppState :=
  { map_widget_exists := true
    geocoding_thread_alive := true
    map_markers := []
    geolocated_count := 0
    skipped_count := 0
    grouped_cases := grouped
    processing_queue := true
    map_status := ""
    status := "Loading map markers (Geocoding in progress)..." }

/-- The three case records of the Jackson scenario: two Jackson, MS cases
with offense types Fraud and Theft, and one case with an empty city. -/
def jacksonScenarioCases : List CaseRecord :=
  [⟨some "Jackson", some "MS", some "Fraud"⟩,
   ⟨some "Jackson", some "MS", some "Theft"⟩,
   ⟨some "", some "MS", some "Fraud"⟩]

theorem emittedEvents_append (a b : List WorkerAction) :
    emittedEvents (a ++ b) = emittedEvents a ++ emittedEvents b := by
  simp [emittedEvents]

theorem processLocation_events (geocoder : String → GeoOutcome) (cache : Cache)
    (city state : String) :
    emittedEvents (processLocation geocoder cache city state).2 =
      [locEvent geocoder cache city state] := by
  unfold processLocation locEvent
  split
  · rfl
  · split <;> rfl

theorem eventLocation_locEvent (geocoder : String → GeoOutcome) (cache : Cache)
    (city state : String) :
    eventLocation (locEvent geocoder cache city state) = some (city, state) := by
  unfold locEvent
  split
  · rfl
  · split <;> rfl

theorem locEvent_ne_finished (geocoder : String → GeoOutcome) (cache : Cache)
    (city state : String) :
    locEvent geocoder cache city state ≠ .finished := by
  unfold locEvent
  split
  · simp
  · split <;> simp

theorem worker_cons_running (geocoder : String → GeoOutcome) (running : Nat → Bool)
    (city state : String) (rest : List (String × String)) (cache : Cache) (index : Nat)
    (h : running index = true) :
    geocode_locations_in_thread geocoder running ((city, state) :: rest) cache index =
      ((geocode_locations_in_thread geocoder running rest
          (processLocation geocoder cache city state).1 (index + 1)).1,
       (processLocation geocoder cache city state).2 ++
         (geocode_locations_in_thread geocoder running rest
           (processLocation geocoder cache city state).1 (index + 1)).2) := by
  simp [geocode_locations_in_thread, h]

theorem worker_cons_stopped (geocoder : String → GeoOutcome) (running : Nat → Bool)
    (city state : String) (rest : List (String × String)) (cache : Cache) (index : Nat)
    (h : running index = false) :
    geocode_locations_in_thread geocoder running ((city, state) :: rest) cache index =
      (cache, [.emit .finished]) := by
  simp [geocode_locations_in_thread, h]

theorem worker_events_cons (geocoder : String → GeoOutcome) (running : Nat → Bool)
    (city state : String) (rest : List (String × String)) (cache : Cache) (index : Nat)
    (h : running index = true) :
    emittedEvents (geocode_locations_in_thread geocoder running
        ((city, state) :: rest) cache index).2 =
      locEvent geocoder cache city state ::
        emittedEvents (geocode_locations_in_thread geocoder running rest
          (processLocation geocoder cache city state).1 (index + 1)).2 := by
  rw [worker_cons_running geocoder running city state rest cache index h]
  rw [emittedEvents_append, processLocation_events]
  rfl

theorem worker_events_noStop (geocoder : String → GeoOutcome) (running : Nat → Bool)
    (hrun : ∀ i, running i = true) :
    ∀ (locations : List (String × String)) (cache : Cache) (index : Nat),
      emittedEvents (geocode_locations_in_thread geocoder running locations cache index).2 =
        perLocationEvents geocoder locations cache ++ [.finished] := by
  intro locations
  induction locations with
  | nil => intro cache index; rfl
  | cons head rest ih =>
      intro cache index
      obtain ⟨city, state⟩ := head
      rw [worker_events_cons geocoder running city state rest cache index (hrun index)]
      rw [ih]
      rfl

theorem worker_events_shape (geocoder : String → GeoOutcome) (running : Nat → Bool) :
    ∀ (locations : List (String × String)) (cache : Cache) (index : Nat),
      ∃ l, emittedEvents (geocode_locations_in_thread geocoder running locations cache index).2 =
        l ++ [.finished] := by
  intro locations
  induction locations with
  | nil => intro cache index; exact ⟨[], rfl⟩
  | cons head rest ih =>
      intro cache index
      obtain ⟨city, state⟩ := head
      by_cases h : running index = true
      · obtain ⟨l, hl⟩ := ih (processLocation geocoder cache city state).1 (index + 1)
        refine ⟨locEvent geocoder cache city state :: l, ?_⟩
        rw [worker_events_cons geocoder running city state rest cache index h, hl]
        rfl
      · refine ⟨[], ?_⟩
        rw [worker_cons_stopped geocoder running city state rest cache index
          (Bool.not_eq_true _ ▸ h)]
        rfl

theorem perLocationEvents_length (geocoder : String → GeoOutcome) :
    ∀ (locations : List (String × String)) (cache : Cache),
      (perLocationEvents geocoder locations cache).length = locations.length := by
  intro locations
  induction locations with
  | nil => intro cache; rfl
  | cons head rest ih =>
      intro cache
      obtain ⟨city, state⟩ := head
      simp [perLocationEvents, ih]

theorem perLocationEvents_getElem (geocoder : String → GeoOutcome) :
    ∀ (locations : List (String × String)) (cache : Cache) (i : Nat),
      ((perLocationEvents geocoder locations cache)[i]?).bind eventLocation =
        locations[i]? := by
  intro locations
  induction locations with
  | nil => intro cache i; simp [perLocationEvents]
  | cons head rest ih =>
      intro cache i
      obtain ⟨city, state⟩ := head
      cases i with
      | zero => simp [perLocationEvents, eventLocation_locEvent]
      | succ n => simp [perLocationEvents, ih]

theorem finished_not_mem_perLocationEvents (geocoder : String → GeoOutcome) :
    ∀ (locations : List (String × String)) (cache : Cache),
      GeocodeEvent.finished ∉ perLocationEvents geocoder locations cache := by
  intro locations
  induction locations with
  | nil => intro cache; simp [perLocationEvents]
  | cons head rest ih =>
      intro cache
      obtain ⟨city, state⟩ := head
      simp only [perLocationEvents, List.mem_cons, not_or]
      exact ⟨fun h => locEvent_ne_finished geocoder cache city state h.symm, ih _⟩

/-- C1: for every non-empty list of unique (city, state) input locations,
absent an early stop (the running flag stays set at every check), the
worker enqueues exactly one event per location, in list order and each
reporting on its own location (hence a cache hit, a fresh geocode or a
skip, never a second finished), followed by exactly one finished event,
and the finished event is the last event enqueued for the batch. -/
theorem worker_one_event_per_location_then_finished
    (geocoder : String → GeoOutcome) (running : Nat → Bool)
    (locations : List (String × String)) (cache : Cache)
    (hrun : ∀ i, running i = true) (hne : locations ≠ [])
    (hnodup : locations.Nodup) :
    (workerEvents geocoder running locations cache).length = locations.length + 1 ∧
    (workerEvents geocoder running locations cache).getLast? = some .finished ∧
    (workerEvents geocoder running locations cache).count .finished = 1 ∧
    ∀ i : Nat, ((workerEvents geocoder running locations cache)[i]?).bind eventLocation =
      locations[i]? := by
  have hshape := worker_events_noStop geocoder running hrun locations cache 0
  unfold workerEvents
  rw [hshape]
  refine ⟨?_, ?_, ?_, ?_⟩
  · simp [perLocationEvents_length]
  · exact List.getLast?_concat _
  · rw [List.count_append]
    rw [List.count_eq_zero.mpr (finished_not_mem_perLocationEvents geocoder locations cache)]
    rfl
  · intro i
    by_cases hi : i < locations.length
    · rw [List.getElem?_append_left
        (by rw [perLocationEvents_length geocoder locations cache]; exact hi)]
      exact perLocationEvents_getElem geocoder locations cache i
    · rw [List.getElem?_append_right
        (by rw [perLocationEvents_length geocoder locations cache]; omega)]
      rw [perLocationEvents_length geocoder locations cache]
      have hr : locations[i]? = none := List.getElem?_eq_none (by omega)
      rw [hr]
      by_cases h0 : i - locations.length = 0
      · rw [h0]; rfl
      · rw [List.getElem?_eq_none (show [GeocodeEvent.finished].length ≤ i - locations.length
          by simp; omega)]
        rfl

/-- Witness for C1 at a concrete two-location input. -/
theorem worker_one_event_per_location_then_finished_witness :
    (workerEvents (fun _ => .noResult) (fun _ => true)
      [("A", "1"), ("B", "2")] emptyCache).length = 2 + 1 :=
  (worker_one_event_per_location_then_finished (fun _ => .noResult) (fun _ => true)
    [("A", "1"), ("B", "2")] emptyCache (fun _ => rfl) (by decide) (by decide)).1

theorem worker_events_stopAt (geocoder : String → GeoOutcome) (running : Nat → Bool) :
    ∀ (k : Nat) (locations : List (String × String)) (cache : Cache) (index : Nat),
      (∀ i, i < k → running (index + i) = true) → running (index + k) = false →
      k < locations.length →
      emittedEvents (geocode_locations_in_thread geocoder running locations cache index).2 =
        perLocationEvents geocoder (locations.take k) cache ++ [.finished] := by
  intro k
  induction k with
  | zero =>
      intro locations cache index _ h2 hk
      have hstop : running index = false := by simpa using h2
      match locations, hk with
      | (city, state) :: rest, _ =>
          rw [worker_cons_stopped geocoder running city state rest cache index hstop]
          rfl
  | succ k ih =>
      intro locations cache index h1 h2 hk
      match locations, hk with
      | (city, state) :: rest, hk2 =>
          have hrun0 : running index = true := by
            have := h1 0 (Nat.succ_pos k)
            simpa using this
          rw [worker_events_cons geocoder running city state rest cache index hrun0]
          rw [ih rest (processLocation geocoder cache city state).1 (index + 1)
            (fun i hi => by
              have := h1 (i + 1) (by omega)
              simpa [Nat.add_assoc, Nat.add_comm 1 i] using this)
            (by
              have : index + 1 + k = index + (k + 1) := by omega
              rw [this]; exact h2)
            (by simp at hk2; omega)]
          rfl

/-- C2 counterexample: with five locations and the running flag observed
cleared from the third check on, the worker still puts the finished
marker on the queue after the two processed locations, because the
queue put of the finished marker sits after the loop and is reached by
the break as well; the claim says no finished event is emitted. -/
theorem worker_early_stop_counterexample :
    workerEvents (fun _ => .noResult) (fun i => decide (i < 2))
        [("A", "1"), ("B", "2"), ("C", "3"), ("D", "4"), ("E", "5")] emptyCache =
      [.skipped "A" "1" "Could not geolocate via Nominatim",
       .skipped "B" "2" "Could not geolocate via Nominatim", .finished] ∧
    GeocodeEvent.finished ∈
      workerEvents (fun _ => .noResult) (fun i => decide (i < 2))
        [("A", "1"), ("B", "2"), ("C", "3"), ("D", "4"), ("E", "5")] emptyCache := by
  decide

/-- C2 (amended): if the stop flag is observed set after k of n locations
have been processed (k less than n), the worker stops and the batch
consists of exactly the k events for those locations, in order, followed
by exactly one finished event, which is still enqueued on early stop and
is the last event of the batch. -/
theorem worker_early_stop_events (geocoder : String → GeoOutcome) (running : Nat → Bool)
    (locations : List (String × String)) (cache : Cache) (k : Nat)
    (h1 : ∀ i, i < k → running i = true) (h2 : running k = false)
    (hk : k < locations.length) :
    (workerEvents geocoder running locations cache).length = k + 1 ∧
    (workerEvents geocoder running locations cache).getLast? = some .finished ∧
    (workerEvents geocoder running locations cache).count .finished = 1 ∧
    ∀ i : Nat, i < k →
      ((workerEvents geocoder running locations cache)[i]?).bind eventLocation =
        locations[i]? := by
  have hshape := worker_events_stopAt geocoder running k locations cache 0
    (fun i hi => by simpa using h1 i hi) (by simpa using h2) hk
  unfold workerEvents
  rw [hshape]
  have hlen : (locations.take k).length = k := by
    rw [List.length_take]; omega
  refine ⟨?_, ?_, ?_, ?_⟩
  · rw [List.length_append, perLocationEvents_length geocoder (locations.take k) cache, hlen]
    rfl
  · exact List.getLast?_concat _
  · rw [List.count_append]
    rw [List.count_eq_zero.mpr
      (finished_not_mem_perLocationEvents geocoder (locations.take k) cache)]
    rfl
  · intro i hi
    rw [List.getElem?_append_left
      (by rw [perLocationEvents_length geocoder (locations.take k) cache, hlen]; exact hi)]
    rw [perLocationEvents_getElem geocoder (locations.take k) cache i]
    exact List.getElem?_take_of_lt hi

/-- Witness for C2 (amended) at a concrete five-location input stopped
after two locations. -/
theorem worker_early_stop_events_witness :
    (workerEvents (fun _ => .noResult) (fun i => decide (i < 2))
      [("A", "1"), ("B", "2"), ("C", "3"), ("D", "4"), ("E", "5")] emptyCache).length =
      2 + 1 :=
  (worker_early_stop_events (fun _ => .noResult) (fun i => decide (i < 2))
    [("A", "1"), ("B", "2"), ("C", "3"), ("D", "4"), ("E", "5")] emptyCache 2
    (fun i hi => by simp; omega) (by decide) (by decide)).1

/-- C3: when the cache lookup for a location hits, the worker performs
exactly the cache read and the queue put of the cache-hit event for that
location, so it never invokes the external geocoder and never sleeps;
when the cache lookup misses, the geocoder is invoked and the last
action of the location is the throttle sleep of 11 tenths (1.1 time
units); and the actions of the whole run on a non-stopped head location
are exactly that location's actions followed by the remaining run, so a
miss's sleep is performed before the next location's processing
begins. -/
theorem cache_hit_skips_throttle_miss_sleeps
    (geocoder : String → GeoOutcome) (cache : Cache) (city state : String) :
    (∀ latitude longitude,
      get_cached_location_db cache (location_cache_key city state) =
          some (latitude, longitude) →
        (processLocation geocoder cache city state).2 =
          [.cacheGet (location_cache_key city state),
           .emit (.success_cached city state latitude longitude)] ∧
        (∀ q, WorkerAction.geocall q ∉ (processLocation geocoder cache city state).2) ∧
        (∀ t, WorkerAction.sleep t ∉ (processLocation geocoder cache city state).2)) ∧
    (get_cached_location_db cache (location_cache_key city state) = none →
      (WorkerAction.geocall (location_string city state) ∈
        (processLocation geocoder cache city state).2) ∧
      (processLocation geocoder cache city state).2.getLast? = some (.sleep 11)) ∧
    (∀ (running : Nat → Bool) (rest : List (String × String)) (index : Nat),
      running index = true →
      (geocode_locations_in_thread geocoder running ((city, state) :: rest) cache index).2 =
        (processLocation geocoder cache city state).2 ++
          (geocode_locations_in_thread geocoder running rest
            (processLocation geocoder cache city state).1 (index + 1)).2) := by
  refine ⟨?_, ?_, ?_⟩
  · intro latitude longitude h
    refine ⟨?_, ?_, ?_⟩ <;> simp [processLocation, h]
  · intro h
    constructor <;>
      (unfold processLocation; rw [h]; rcases geocoder (location_string city state) <;> simp)
  · intro running rest index h
    rw [worker_cons_running geocoder running city state rest cache index h]

/-- Witness for C3: the hit branch on a one-entry cache, and the miss
branch on the empty cache. -/
theorem cache_hit_skips_throttle_miss_sleeps_witness :
    (processLocation (fun _ => .noResult)
        (add_cached_location_db emptyCache (location_cache_key "X" "Y") 5 6) "X" "Y").2 =
      [.cacheGet (location_cache_key "X" "Y"),
       .emit (.success_cached "X" "Y" 5 6)] ∧
    (processLocation (fun _ => .noResult) emptyCache "N" "Z").2.getLast? =
      some (.sleep 11) := by
  constructor
  · exact ((cache_hit_skips_throttle_miss_sleeps (fun _ => .noResult)
      (add_cached_location_db emptyCache (location_cache_key "X" "Y") 5 6) "X" "Y").1
      5 6 (by decide)).1
  · exact ((cache_hit_skips_throttle_miss_sleeps (fun _ => .noResult)
      emptyCache "N" "Z").2.1 (by decide)).2

theorem processLocation_failure (geocoder : String → GeoOutcome) (cache : Cache)
    (city state : String)
    (hmiss : get_cached_location_db cache (location_cache_key city state) = none)
    (hfail : isFailure (geocoder (location_string city state)) = true) :
    (processLocation geocoder cache city state).1 = cache ∧
    locEvent geocoder cache city state =
      .skipped city state (failureReason (geocoder (location_string city state))) := by
  unfold processLocation locEvent
  rw [hmiss]
  rcases hout : geocoder (location_string city state) <;>
    simp [failureReason, hout]
  · rw [hout] at hfail
    simp [isFailure] at hfail

/-- C4: if the cache misses for a location and the external geocode for
it fails in any way (no result, timeout, service unavailable, or any
other exception), then at a non-stopped iteration the worker enqueues
exactly one skipped event for that location, carrying the reason string
of that failure; the cache is unchanged and the rest of the batch is
processed exactly as it would have been without the failure; and the run
still ends with its finished marker, so the worker never terminates
abnormally and never propagates the failure to its caller. -/
theorem geocode_failure_contained
    (geocoder : String → GeoOutcome) (running : Nat → Bool)
    (city state : String) (rest : List (String × String)) (cache : Cache) (index : Nat)
    (hmiss : get_cached_location_db cache (location_cache_key city state) = none)
    (hfail : isFailure (geocoder (location_string city state)) = true)
    (hrun : running index = true) :
    emittedEvents (geocode_locations_in_thread geocoder running
        ((city, state) :: rest) cache index).2 =
      GeocodeEvent.skipped city state
          (failureReason (geocoder (location_string city state))) ::
        emittedEvents (geocode_locations_in_thread geocoder running
          rest cache (index + 1)).2 ∧
    (processLocation geocoder cache city state).1 = cache ∧
    (emittedEvents (geocode_locations_in_thread geocoder running
      ((city, state) :: rest) cache index).2).getLast? = some .finished := by
  obtain ⟨hcache, hevent⟩ := processLocation_failure geocoder cache city state hmiss hfail
  refine ⟨?_, hcache, ?_⟩
  · rw [worker_events_cons geocoder running city state rest cache index hrun, hevent, hcache]
  · obtain ⟨l, hl⟩ := worker_events_shape geocoder running ((city, state) :: rest) cache index
    rw [hl]
    exact List.getLast?_concat _

/-- Witness for C4: a timed-out geocode for the first of two locations. -/
theorem geocode_failure_contained_witness :
    emittedEvents (geocode_locations_in_thread (fun _ => .timedOut) (fun _ => true)
        [("N", "Z"), ("A", "B")] emptyCache 0).2 =
      GeocodeEvent.skipped "N" "Z"
          (failureReason ((fun _ => GeoOutcome.timedOut) (location_string "N" "Z"))) ::
        emittedEvents (geocode_locations_in_thread (fun _ => .timedOut) (fun _ => true)
          [("A", "B")] emptyCache 1).2 :=
  (geocode_failure_contained (fun _ => .timedOut) (fun _ => true) "N" "Z" [("A", "B")]
    emptyCache 0 (by decide) (by decide) (by decide)).1

theorem processLocation_cache_mono (geocoder : String → GeoOutcome) (cache : Cache)
    (city state : String) (k : String)
    (h : (get_cached_location_db cache k).isSome = true) :
    (get_cached_location_db (processLocation geocoder cache city state).1 k).isSome = true := by
  unfold processLocation
  split
  · exact h
  · split <;> try exact h
    simp only [get_cached_location_db, add_cached_location_db] at h ⊢
    split
    · rfl
    · exact h

theorem worker_cache_mono (geocoder : String → GeoOutcome) (running : Nat → Bool) :
    ∀ (locations : List (String × String)) (cache : Cache) (index : Nat) (k : String),
      (get_cached_location_db cache k).isSome = true →
      (get_cached_location_db
        (geocode_locations_in_thread geocoder running locations cache index).1 k).isSome =
        true := by
  intro locations
  induction locations with
  | nil => intro cache index k h; exact h
  | cons head rest ih =>
      intro cache index k h
      obtain ⟨city, state⟩ := head
      by_cases hr : running index = true
      · rw [worker_cons_running geocoder running city state rest cache index hr]
        exact ih _ _ k (processLocation_cache_mono geocoder cache city state k h)
      · rw [worker_cons_stopped geocoder running city state rest cache index
          (Bool.not_eq_true _ ▸ hr)]
        exact h

theorem locEvent_geocoded_inversion (geocoder : String → GeoOutcome) (cache : Cache)
    (c₀ s₀ city state : String) (la lo : Int)
    (h : locEvent geocoder cache c₀ s₀ = .success_geocoded city state la lo) :
    c₀ = city ∧ s₀ = state ∧
    get_cached_location_db cache (location_cache_key c₀ s₀) = none ∧
    geocoder (location_string c₀ s₀) = .found la lo := by
  unfold locEvent at h
  split at h
  · simp at h
  · rename_i hnone
    split at h <;> rename_i hout
    · cases h
      exact ⟨rfl, rfl, hnone, hout⟩
    · simp at h
    · simp at h
    · simp at h
    · simp at h

theorem processLocation_found (geocoder : String → GeoOutcome) (cache : Cache)
    (city state : String) (la lo : Int)
    (hnone : get_cached_location_db cache (location_cache_key city state) = none)
    (hfound : geocoder (location_string city state) = .found la lo) :
    (processLocation geocoder cache city state).1 =
      add_cached_location_db cache (location_cache_key city state) la lo ∧
    WorkerAction.cachePut (location_cache_key city state) la lo ∈
      (processLocation geocoder cache city state).2 := by
  unfold processLocation
  rw [hnone, hfound]
  exact ⟨rfl, by simp⟩

theorem geocoded_implies_cached (geocoder : String → GeoOutcome) (running : Nat → Bool) :
    ∀ (locations : List (String × String)) (cache : Cache) (index : Nat)
      (city state : String) (la lo : Int),
      GeocodeEvent.success_geocoded city state la lo ∈
        emittedEvents (geocode_locations_in_thread geocoder running locations cache index).2 →
      (WorkerAction.cachePut (location_cache_key city state) la lo ∈
        (geocode_locations_in_thread geocoder running locations cache index).2) ∧
      (get_cached_location_db
        (geocode_locations_in_thread geocoder running locations cache index).1
        (location_cache_key city state)).isSome = true := by
  intro locations
  induction locations with
  | nil =>
      intro cache index city state la lo hmem
      simp [geocode_locations_in_thread, emittedEvents] at hmem
  | cons head rest ih =>
      intro cache index city state la lo hmem
      obtain ⟨c₀, s₀⟩ := head
      by_cases hr : running index = true
      · rw [worker_events_cons geocoder running c₀ s₀ rest cache index hr] at hmem
        rw [worker_cons_running geocoder running c₀ s₀ rest cache index hr]
        rcases List.mem_cons.mp hmem with hhead | htail
        · obtain ⟨hc, hs, hnone, hfound⟩ :=
            locEvent_geocoded_inversion geocoder cache c₀ s₀ city state la lo hhead.symm
          subst hc
          subst hs
          obtain ⟨hfst, hput⟩ :=
            processLocation_found geocoder cache c₀ s₀ la lo hnone hfound
          constructor
          · exact List.mem_append_left _ hput
          · apply worker_cache_mono geocoder running rest _ (index + 1)
            rw [hfst]
            simp [get_cached_location_db, add_cached_location_db]
        · have hres := ih (processLocation geocoder cache c₀ s₀).1 (index + 1)
            city state la lo htail
          exact ⟨List.mem_append_right _ hres.1, hres.2⟩
      · rw [worker_cons_stopped geocoder running c₀ s₀ rest cache index
          (Bool.not_eq_true _ ▸ hr)] at hmem ⊢
        simp [emittedEvents] at hmem

theorem cached_key_gives_cachehit (geocoder : String → GeoOutcome) :
    ∀ (locations : List (String × String)) (cache : Cache) (index : Nat)
      (city state : String),
      (get_cached_location_db cache (location_cache_key city state)).isSome = true →
      (city, state) ∈ locations →
      ∃ la lo, GeocodeEvent.success_cached city state la lo ∈
        emittedEvents
          (geocode_locations_in_thread geocoder (fun _ => true) locations cache index).2 := by
  intro locations
  induction locations with
  | nil => intro cache index city state _ hmem; simp at hmem
  | cons head rest ih =>
      intro cache index city state hsome hmem
      obtain ⟨c₀, s₀⟩ := head
      rw [worker_events_cons geocoder (fun _ => true) c₀ s₀ rest cache index rfl]
      rcases List.mem_cons.mp hmem with hhead | htail
      · injection hhead with hc hs
        subst hc
        subst hs
        obtain ⟨⟨la, lo⟩, hval⟩ := Option.isSome_iff_exists.mp hsome
        refine ⟨la, lo, ?_⟩
        have hloc : locEvent geocoder cache city state = .success_cached city state la lo := by
          unfold locEvent
          rw [hval]
        rw [hloc]
        exact List.mem_cons_self _ _
      · obtain ⟨la, lo, hin⟩ := ih (processLocation geocoder cache c₀ s₀).1 (index + 1)
          city state
          (processLocation_cache_mono geocoder cache c₀ s₀ _ hsome) htail
        exact ⟨la, lo, List.mem_cons_of_mem _ hin⟩

theorem cached_key_no_geocoded (geocoder : String → GeoOutcome) (running : Nat → Bool) :
    ∀ (locations : List (String × String)) (cache : Cache) (index : Nat)
      (city state : String) (la lo : Int),
      (get_cached_location_db cache (location_cache_key city state)).isSome = true →
      GeocodeEvent.success_geocoded city state la lo ∉
        emittedEvents
          (geocode_locations_in_thread geocoder running locations cache index).2 := by
  intro locations
  induction locations with
  | nil =>
      intro cache index city state la lo _ hmem
      simp [geocode_locations_in_thread, emittedEvents] at hmem
  | cons head rest ih =>
      intro cache index city state la lo hsome hmem
      obtain ⟨c₀, s₀⟩ := head
      by_cases hr : running index = true
      · rw [worker_events_cons geocoder running c₀ s₀ rest cache index hr] at hmem
        rcases List.mem_cons.mp hmem with hhead | htail
        · obtain ⟨hc, hs, hnone, _⟩ :=
            locEvent_geocoded_inversion geocoder cache c₀ s₀ city state la lo hhead.symm
          subst hc
          subst hs
          rw [hnone] at hsome
          simp at hsome
        · exact ih (processLocation geocoder cache c₀ s₀).1 (index + 1) city state la lo
            (processLocation_cache_mono geocoder cache c₀ s₀ _ hsome) htail
      · rw [worker_cons_stopped geocoder running c₀ s₀ rest cache index
          (Bool.not_eq_true _ ▸ hr)] at hmem
        simp [emittedEvents] at hmem

/-- C5: when a run of the worker emits a fresh-geocode event for a
location, that run performed the write-through cache put of the
resulting coordinates under the location's key, the key is present in
the cache the run leaves behind, and a second full load cycle (no early
stop) whose unique-location list contains that location produces a
cache-hit event for it and no fresh-geocode event for it. -/
theorem geocode_write_through_second_cycle_cachehit
    (g₁ g₂ : String → GeoOutcome) (running₁ : Nat → Bool)
    (locations₁ locations₂ : List (String × String)) (cache : Cache)
    (city state : String) (la lo : Int)
    (hmem₁ : GeocodeEvent.success_geocoded city state la lo ∈
      emittedEvents (geocode_locations_in_thread g₁ running₁ locations₁ cache 0).2)
    (hmem₂ : (city, state) ∈ locations₂) :
    (WorkerAction.cachePut (location_cache_key city state) la lo ∈
      (geocode_locations_in_thread g₁ running₁ locations₁ cache 0).2) ∧
    ((get_cached_location_db (geocode_locations_in_thread g₁ running₁ locations₁ cache 0).1
      (location_cache_key city state)).isSome = true) ∧
    (∃ la₂ lo₂, GeocodeEvent.success_cached city state la₂ lo₂ ∈
      workerEvents g₂ (fun _ => true) locations₂
        (geocode_locations_in_thread g₁ running₁ locations₁ cache 0).1) ∧
    (∀ la₂ lo₂, GeocodeEvent.success_geocoded city state la₂ lo₂ ∉
      workerEvents g₂ (fun _ => true) locations₂
        (geocode_locations_in_thread g₁ running₁ locations₁ cache 0).1) := by
  obtain ⟨hput, hsome⟩ :=
    geocoded_implies_cached g₁ running₁ locations₁ cache 0 city state la lo hmem₁
  refine ⟨hput, hsome, ?_, ?_⟩
  · exact cached_key_gives_cachehit g₂ locations₂ _ 0 city state hsome hmem₂
  · intro la₂ lo₂
    exact cached_key_no_geocoded g₂ (fun _ => true) locations₂ _ 0 city state la₂ lo₂ hsome

/-- Witness for C5: a one-location first cycle that geocodes (1, 2), then
a second full cycle over the same location. -/
theorem geocode_write_through_second_cycle_cachehit_witness :
    ∃ la₂ lo₂, GeocodeEvent.success_cached "A" "B" la₂ lo₂ ∈
      workerEvents (fun _ => .noResult) (fun _ => true) [("A", "B")]
        (geocode_locations_in_thread (fun _ => .found 1 2) (fun _ => true)
          [("A", "B")] emptyCache 0).1 :=
  (geocode_write_through_second_cycle_cachehit (fun _ => .found 1 2) (fun _ => .noResult)
    (fun _ => true) [("A", "B")] [("A", "B")] emptyCache "A" "B" 1 2
    (by decide) (by decide)).2.2.1

/-- C6: a load request issued while a worker thread is alive is a no-op
apart from a status message: markers, counters, grouping and the thread
flag are untouched, and no second worker is started, so no second
finished event can be produced for the batch. -/
theorem load_while_running_noop (st : AppState) (all_cases : List CaseRecord)
    (hw : st.map_widget_exists = true) (ht : st.geocoding_thread_alive = true) :
    load_map_markers st all_cases =
      ({ st with status := "Map loading already in progress." }, .noop) ∧
    (load_map_markers st all_cases).1.map_markers = st.map_markers ∧
    (load_map_markers st all_cases).1.geolocated_count = st.geolocated_count ∧
    (load_map_markers st all_cases).1.skipped_count = st.skipped_count ∧
    (load_map_markers st all_cases).1.grouped_cases = st.grouped_cases ∧
    (load_map_markers st all_cases).1.geocoding_thread_alive = true ∧
    (load_map_markers st all_cases).2 = LoadOutcome.noop := by
  refine ⟨?_, ?_, ?_, ?_, ?_, ?_, ?_⟩ <;> simp [load_map_markers, hw, ht]

/-- Witness for C6 at a concrete state with a live worker. -/
theorem load_while_running_noop_witness :
    (load_map_markers (initialSyncState []) []).2 = LoadOutcome.noop :=
  (load_while_running_noop (initialSyncState []) [] rfl rfl).2.2.2.2.2.2

/-- C7 counterexample: when the geocoder returns no result for
(Nowhereville, ZZ), the single skipped event the worker enqueues carries
the reason string used by the source, which is the literal
Could not geolocate via Nominatim, and no event with the reason
not found is enqueued, contrary to the claim's stated reason. -/
theorem nowhereville_notfound_reason_counterexample :
    workerEvents (fun _ => .noResult) (fun _ => true) [("Nowhereville", "ZZ")] emptyCache =
      [.skipped "Nowhereville" "ZZ" "Could not geolocate via Nominatim", .finished] ∧
    GeocodeEvent.skipped "Nowhereville" "ZZ" "not found" ∉
      workerEvents (fun _ => .noResult) (fun _ => true) [("Nowhereville", "ZZ")]
        emptyCache := by
  decide

/-- C7 (amended): when the geocoder returns no result for
(Nowhereville, ZZ) as the only location, the worker enqueues exactly one
skipped event for it, with the reason string
Could not geolocate via Nominatim; the sync loop increments the skipped
counter to 1, places no marker, and the final map status text contains
the substring (1 skipped/errored). -/
theorem nowhereville_skip_pipeline :
    workerEvents (fun _ => .noResult) (fun _ => true) [("Nowhereville", "ZZ")] emptyCache =
      [.skipped "Nowhereville" "ZZ" "Could not geolocate via Nominatim", .finished] ∧
    (drainQueue (fun _ => true) (initialSyncState [])
        (workerEvents (fun _ => .noResult) (fun _ => true) [("Nowhereville", "ZZ")]
          emptyCache) 0).skipped_count = 1 ∧
    (drainQueue (fun _ => true) (initialSyncState [])
        (workerEvents (fun _ => .noResult) (fun _ => true) [("Nowhereville", "ZZ")]
          emptyCache) 0).geolocated_count = 0 ∧
    (drainQueue (fun _ => true) (initialSyncState [])
        (workerEvents (fun _ => .noResult) (fun _ => true) [("Nowhereville", "ZZ")]
          emptyCache) 0).map_markers = [] ∧
    ∃ pre post,
      (drainQueue (fun _ => true) (initialSyncState [])
          (workerEvents (fun _ => .noResult) (fun _ => true) [("Nowhereville", "ZZ")]
            emptyCache) 0).map_status = pre ++ "(1 skipped/errored)" ++ post := by
  refine ⟨by decide, by decide, by decide, by decide,
    "Map status: No geolocatable cases. ", "", by decide⟩

/-- C8: for the Jackson scenario cases, the unique-location set computed
by the load coordinator is exactly the singleton (Jackson, MS) — the
empty-city case is excluded — and the popup text built for the Jackson
marker lists the offense types Fraud and Theft exactly once each. -/
theorem jackson_scenario_unique_locations_and_popup :
    (extractLocations jacksonScenarioCases).1 = [("Jackson", "MS")] ∧
    sortStrings ((uniqueOffenseTypes
        (lookupGroup (extractLocations jacksonScenarioCases).2 ("Jackson", "MS"))).filter
      (fun o => o ≠ "")) = ["Fraud", "Theft"] ∧
    buildInfoText (extractLocations jacksonScenarioCases).2 "Jackson" "MS" =
      "City of Offense: Jackson\n\nTypes of Offense:\n- Fraud\n- Theft" := by
  refine ⟨by decide, by decide, by decide⟩

/-- C9: the mapping from a (city, state) pair to the cache key
city ++ bar ++ state is not injective: the distinct pairs
(a|b, c) and (a, b|c) share the cache key, so a cache write-through for
one is read back as a hit for the other, and a later write for the
second overwrites the cached coordinates of the first. -/
theorem cache_key_not_injective :
    (("a|b", "c") : String × String) ≠ ("a", "b|c") ∧
    location_cache_key "a|b" "c" = location_cache_key "a" "b|c" ∧
    get_cached_location_db
        (add_cached_location_db emptyCache (location_cache_key "a|b" "c") 1 2)
        (location_cache_key "a" "b|c") = some (1, 2) ∧
    get_cached_location_db
        (add_cached_location_db
          (add_cached_location_db emptyCache (location_cache_key "a|b" "c") 1 2)
          (location_cache_key "a" "b|c") 3 4)
        (location_cache_key "a|b" "c") = some (3, 4) := by
  refine ⟨by decide, by decide, by decide, by decide⟩

theorem processQueueItem_widget (b : Bool) (st : AppState) (e : GeocodeEvent) :
    (processQueueItem b st e).map_widget_exists = st.map_widget_exists := by
  cases e <;> simp only [processQueueItem] <;> try rfl
  · split <;> rfl
  · split <;> rfl

theorem processQueueItem_counts (b : Bool) (st : AppState) (e : GeocodeEvent)
    (h : e ≠ .finished) :
    (processQueueItem b st e).geolocated_count + (processQueueItem b st e).skipped_count =
      st.geolocated_count + st.skipped_count + 1 := by
  cases e with
  | finished => exact absurd rfl h
  | skipped city state reason =>
      simp [processQueueItem]
      omega
  | success_cached city state la lo =>
      simp only [processQueueItem]
      split <;> simp <;> omega
  | success_geocoded city state la lo =>
      simp only [processQueueItem]
      split <;> simp <;> omega

theorem handleFinished_widget (st : AppState) :
    (handleFinished st).map_widget_exists = st.map_widget_exists := by
  simp only [handleFinished, finalize_map_loading]
  split <;> rfl

theorem handleFinished_counts (st : AppState) :
    (handleFinished st).geolocated_count = st.geolocated_count ∧
    (handleFinished st).skipped_count = st.skipped_count := by
  simp only [handleFinished, finalize_map_loading]
  split <;> exact ⟨rfl, rfl⟩

theorem drainQueue_cons_finished (placeOk : Nat → Bool) (st : AppState)
    (rest : List GeocodeEvent) (index : Nat) (hw : st.map_widget_exists = true) :
    drainQueue placeOk st (GeocodeEvent.finished :: rest) index =
      drainQueue placeOk (handleFinished st) rest (index + 1) := by
  have hw' : (handleFinished st).map_widget_exists = true := by
    rw [handleFinished_widget st]; exact hw
  simp [drainQueue, hw']

theorem drainQueue_cons_event (placeOk : Nat → Bool) (st : AppState) (e : GeocodeEvent)
    (rest : List GeocodeEvent) (index : Nat) (hf : e ≠ .finished)
    (hw : st.map_widget_exists = true) :
    drainQueue placeOk st (e :: rest) index =
      drainQueue placeOk (processQueueItem (placeOk index) st e) rest (index + 1) := by
  simp [drainQueue, hf, hw]

theorem drainQueue_counts (placeOk : Nat → Bool) :
    ∀ (events : List GeocodeEvent) (st : AppState) (index : Nat),
      st.map_widget_exists = true →
      (drainQueue placeOk st events index).geolocated_count +
          (drainQueue placeOk st events index).skipped_count =
        st.geolocated_count + st.skipped_count +
          (events.filter (fun e => decide (e ≠ GeocodeEvent.finished))).length := by
  intro events
  induction events with
  | nil => intro st index hw; simp [drainQueue]
  | cons e rest ih =>
      intro st index hw
      by_cases hf : e = .finished
      · subst hf
        rw [drainQueue_cons_finished placeOk st rest index hw]
        rw [ih (handleFinished st) (index + 1) (by rw [handleFinished_widget st]; exact hw)]
        obtain ⟨h1, h2⟩ := handleFinished_counts st
        rw [h1, h2]
        simp
      · rw [drainQueue_cons_event placeOk st e rest index hf hw]
        rw [ih (processQueueItem (placeOk index) st e) (index + 1)
          (by rw [processQueueItem_widget]; exact hw)]
        have hc := processQueueItem_counts (placeOk index) st e hf
        simp [hf, List.filter_cons]
        omega

/-- C10: every non-finished event the sync loop fully processes
increments exactly one of the two counters by one — and a success event
whose marker placement raises increments the skipped counter instead of
the geolocated counter — so after draining any event list with the map
widget alive, the two counters sum to their initial sum plus the number
of non-finished events processed. -/
theorem sync_loop_counter_invariant :
    (∀ (st : AppState) (b : Bool) (e : GeocodeEvent), e ≠ .finished →
      (processQueueItem b st e).geolocated_count + (processQueueItem b st e).skipped_count =
        st.geolocated_count + st.skipped_count + 1) ∧
    (∀ (st : AppState) (city state : String) (la lo : Int),
      ((processQueueItem false st (.success_cached city state la lo)).skipped_count =
          st.skipped_count + 1 ∧
        (processQueueItem false st (.success_cached city state la lo)).geolocated_count =
          st.geolocated_count) ∧
      ((processQueueItem false st (.success_geocoded city state la lo)).skipped_count =
          st.skipped_count + 1 ∧
        (processQueueItem false st (.success_geocoded city state la lo)).geolocated_count =
          st.geolocated_count)) ∧
    (∀ (placeOk : Nat → Bool) (events : List GeocodeEvent) (st : AppState) (index : Nat),
      st.map_widget_exists = true →
      (drainQueue placeOk st events index).geolocated_count +
          (drainQueue placeOk st events index).skipped_count =
        st.geolocated_count + st.skipped_count +
          (events.filter (fun e => decide (e ≠ GeocodeEvent.finished))).length) := by
  exact ⟨fun st b e h => processQueueItem_counts b st e h,
    fun st city state la lo => ⟨⟨rfl, rfl⟩, ⟨rfl, rfl⟩⟩,
    fun placeOk events st index hw => drainQueue_counts placeOk events st index hw⟩

/-- Witness for C10: a drain of one placement-failing success event, one
skipped event and the finished event from the reset state. -/
theorem sync_loop_counter_invariant_witness :
    (drainQueue (fun _ => false) (initialSyncState [])
        [.success_cached "A" "B" 1 2, .skipped "C" "D" "x", .finished] 0).geolocated_count +
      (drainQueue (fun _ => false) (initialSyncState [])
        [.success_cached "A" "B" 1 2, .skipped "C" "D" "x", .finished] 0).skipped_count =
      0 + 0 + 2 :=
  sync_loop_counter_invariant.2.2 (fun _ => false)
    [.success_cached "A" "B" 1 2, .skipped "C" "D" "x", .finished]
    (initialSyncState []) 0 rfl
